import Mathlib

/-!
Shallow embedding of the EComm Gemini Live session bridge
(`server/gemini_live_service.py`, `server/gemini_live2_service.py`,
`server/utils.py`, and the response-polling route of `server/app.py`).

Python dictionaries keyed by session id are modelled as partial maps
`String → Option σ`.  Network and cloud-SDK effects (the search HTTP call,
the TTS synthesis call, the remote Gemini stream) are modelled as explicit
outcome parameters; the remote response stream of one turn is a list of
frames following the inbound message grammar (text fragment, tool-call
request, end-of-turn marker).  Socket.IO emissions are collected into an
event list in emission order.
-/

namespace Ecomm

/-- Partial map from session ids to values: the model of a Python dict
keyed by session id. -/
abbrev Registry (σ : Type) : Type := String → Option σ

/-- Dict write `d[k] = v` (insert or overwrite). -/
def Registry.set {σ : Type} (r : Registry σ) (k : String) (v : σ) : Registry σ :=
  fun q => if q = k then some v else r q

/-- In-place mutation of the entry at `k` (a no-op when `k` is absent):
models `d[k]["field"] = v` on a Python dict of dicts. -/
def Registry.modify {σ : Type} (r : Registry σ) (k : String) (f : σ → σ) : Registry σ :=
  fun q => if q = k then (r k).map f else r q

/-- Dict deletion `del d[k]`. -/
def Registry.erase {σ : Type} (r : Registry σ) (k : String) : Registry σ :=
  fun q => if q = k then none else r q

/-- The empty registry: a fresh `{}`. -/
def Registry.empty {σ : Type} : Registry σ := fun _ => none

/-! ## `utils.py`: `normalize_product` -/

/-- A raw product dict as returned by the search backend; each field is
`some v` when the key is present (with string value `v`) and `none` when
absent.  Only the keys read by the code are modelled. -/
structure Product where
  id : Option String
  productid : Option String
  image_url : Option String
  name : Option String
  description : Option String
  price : Option String
  aisle : Option String
deriving DecidableEq, Repr

/-- Normalized product dict produced by `normalize_product`. -/
structure NormProduct where
  id : String
  image_url : String
  name : String
  description : String
  price : String
  aisle : String
deriving DecidableEq, Repr

/-- Python `a or b` on an optional string: `b` when `a` is missing or
falsy (empty). -/
def pyOr (a : Option String) (b : String) : String :=
  match a with
  | some s => if s = "" then b else s
  | none => b

/-- `utils.normalize_product(product, query=None)`.  The random default
price (`random.randint(999, 9999)/100`) is made explicit as the `rand`
parameter. -/
def normalize_product (rand : String) (query : Option String) (p : Product) : NormProduct :=
  { id := pyOr p.id (p.productid.getD "")
  , image_url := p.image_url.getD ""
  , name := p.name.getD ("Product " ++ p.id.getD (p.productid.getD ""))
  , description := p.description.getD
      ("This product matches your " ++ pyOr query "image" ++ " search")
  , price := p.price.getD rand
  , aisle := p.aisle.getD "Unknown" }

/-! ## Tool Executor: `GeminiLiveService._execute_function` -/

/-- The JSON body of a 200 response from `/api/search`: the code only
looks for the `results` key. -/
structure SearchData where
  results : Option (List Product)
deriving DecidableEq, Repr

/-- Outcome of the HTTP request `GET /api/search?query=...` made inside
`_execute_function`: a 200 response with parsed JSON, a non-200 status
with a body text, or a raised exception with its message. -/
inductive SearchOutcome
  | ok (d : SearchData)
  | httpError (status : Nat) (body : String)
  | exn (msg : String)
deriving DecidableEq, Repr

/-- Return value of `_execute_function`: either the full parsed search
payload or a structured `{"error": ...}` dict. -/
inductive FunctionResult
  | ok (d : SearchData)
  | err (msg : String)
deriving DecidableEq, Repr

/-- `GeminiLiveService._execute_function(function_name, function_args)`,
with `function_args.get("query")` modelled as `query` and the network
effect as `net`.  Returns a value in every case: every failure path of
the source is a `return {"error": ...}`. -/
def execute_function (function_name : String) (query : Option String)
    (net : SearchOutcome) : FunctionResult :=
  if function_name = "search_products" then
    match query with
    | none => .err "No query provided"
    | some q =>
      if q = "" then .err "No query provided"
      else
        match net with
        | .ok d => .ok d
        | .httpError status body =>
            .err ("Search failed with status " ++ toString status ++ ": " ++ body)
        | .exn msg => .err ("Error executing search: " ++ msg)
  else
    .err ("Unknown function: " ++ function_name)

/-! ## `GeminiLiveService`: session registry and lifecycle -/

/-- One entry of `GeminiLiveService.active_sessions`.  The queue, config
and connection-handle fields of the source dict are runtime objects of
the event loop and are not observable by any claim; the lifecycle fields
`connected` and `task` (modelled as `hasTask : Bool`, whether a task
object is attached) are kept. -/
structure V1Session where
  connected : Bool
  hasTask : Bool
deriving DecidableEq, Repr

/-- One entry of `GeminiLiveService.session_responses`:
`{"text": ..., "done": ..., "audio": None}` plus the `retrieved` marker
added by `clear_response`. -/
structure SessionResponse where
  text : String
  done : Bool
  retrieved : Bool
deriving DecidableEq, Repr

/-- The two session-keyed dicts owned by `GeminiLiveService`. -/
structure V1State where
  active_sessions : Registry V1Session
  session_responses : Registry SessionResponse

/-- The state with both dicts empty (service just initialized). -/
def V1State.empty : V1State := ⟨Registry.empty, Registry.empty⟩

namespace GeminiLiveService

/-- `GeminiLiveService.create_session(session_id)`: stores the session
entry (`connected: False`), initializes the response entry, attaches the
background task, and returns the session id — unconditionally, before the
remote handshake has been attempted. -/
def create_session (st : V1State) (session_id : String) : String × V1State :=
  (session_id,
   { active_sessions := Registry.set st.active_sessions session_id
       { connected := false, hasTask := true }
   , session_responses := Registry.set st.session_responses session_id
       { text := "", done := false, retrieved := false } })

/-- The `except` branch of `_session_background_task` when
`aio.live.connect` (the remote handshake) raises: logs, sets
`session_data["connected"] = False`, and returns.  The registry entry is
not removed. -/
def handshake_failure (st : V1State) (session_id : String) : V1State :=
  let markDisconnected : V1Session → V1Session := fun s => { s with connected := false }
  { st with active_sessions :=
      Registry.modify st.active_sessions session_id markDisconnected }

/-- `GeminiLiveService.end_session(session_id)`: returns `None` (modelled
as `Option Bool`, always `none`) and, when the id is known, deletes the
entries from both dicts. -/
def end_session (st : V1State) (session_id : String) : Option Bool × V1State :=
  match st.active_sessions session_id with
  | none => (none, st)
  | some _ =>
      (none,
       { active_sessions := Registry.erase st.active_sessions session_id
       , session_responses := Registry.erase st.session_responses session_id })

/-- `GeminiLiveService.get_current_response(session_id)`: the stored
response dict, or `None` when the id is unknown. -/
def get_current_response (responses : Registry SessionResponse)
    (session_id : String) : Option SessionResponse :=
  responses session_id

/-- `GeminiLiveService.clear_response(session_id)`: resets the entry
(marking it retrieved) only when it exists and is done. -/
def clear_response (responses : Registry SessionResponse)
    (session_id : String) : Registry SessionResponse :=
  match responses session_id with
  | some r =>
      if r.done then
        Registry.set responses session_id { text := "", done := false, retrieved := true }
      else responses
  | none => responses

end GeminiLiveService

/-- Result of the Flask route `GET /api/live/response/<session_id>`
(`app.get_live_response`): either the response JSON (HTTP 200) or the
`{'status': 'processing'}` body with HTTP 202. -/
inductive LiveResponseRoute
  | json (body : SessionResponse)
  | processing
deriving DecidableEq, Repr

/-- `app.get_live_response(session_id)`: returns the current response and
clears it when present (the stored dict is never empty, hence always
truthy), else answers 202 `processing`. -/
def get_live_response (responses : Registry SessionResponse)
    (session_id : String) : LiveResponseRoute × Registry SessionResponse :=
  match GeminiLiveService.get_current_response responses session_id with
  | some r => (.json r, GeminiLiveService.clear_response responses session_id)
  | none => (.processing, responses)

/-! ## `GeminiLive2Service` -/

/-- One entry of `GeminiLive2Service.sessions`.  `audio` is the
ever-growing list of received PCM chunks (byte strings as `List Nat`);
`outQueuePending` records the puts scheduled onto the session's
`out_queue` via `run_coroutine_threadsafe`.  The socketio/client/task
handles are runtime objects not observable by any claim. -/
structure Live2Session where
  audio : List (List Nat)
  active : Bool
  outQueuePending : List (List Nat)
deriving DecidableEq, Repr

/-- Return value of `GeminiLive2Service.handle_audio_chunk`. -/
inductive AudioChunkResult
  | ok (status : String)
  | error (msg : String)
deriving DecidableEq, Repr

namespace GeminiLive2Service

/-- `GeminiLive2Service.create_session()` with the generated uuid made
explicit: inserts a fresh active entry and returns the id. -/
def create_session (r : Registry Live2Session) (session_id : String) :
    String × Registry Live2Session :=
  (session_id,
   Registry.set r session_id { audio := [], active := true, outQueuePending := [] })

/-- `GeminiLive2Service.end_session(session_id)`: marks the entry
inactive and returns `True` when the id is known, else returns `False`.
The entry is never removed from `sessions`. -/
def end_session (r : Registry Live2Session) (session_id : String) :
    Bool × Registry Live2Session :=
  match r session_id with
  | some s => (true, Registry.set r session_id { s with active := false })
  | none => (false, r)

/-- `GeminiLive2Service.handle_audio_chunk(session_id, pcm_bytes)`:
rejects a missing or inactive session; otherwise schedules a put of the
chunk onto `out_queue` when an event loop is attached (`hasLoop`),
appends the chunk to the session's `audio` list, and acknowledges. -/
def handle_audio_chunk (hasLoop : Bool) (r : Registry Live2Session)
    (session_id : String) (pcm : List Nat) :
    AudioChunkResult × Registry Live2Session :=
  match r session_id with
  | none => (.error "Invalid session", r)
  | some s =>
    if s.active then
      let s1 := if hasLoop then { s with outQueuePending := s.outQueuePending ++ [pcm] } else s
      let s2 := { s1 with audio := s1.audio ++ [pcm] }
      (.ok "audio chunk received", Registry.set r session_id s2)
    else
      (.error "Invalid session", r)

end GeminiLive2Service

/-! ## Audio Synthesizer Adapter: `GeminiLiveService.stream_tts_audio` -/

/-- Events emitted by `stream_tts_audio`: `receive_audio_chunk` (payload
modelled as the raw chunk bytes; the source base64-encodes them for the
wire) and `audio_stream_end`. -/
inductive TtsEvent
  | audioChunk (payload : List Nat)
  | audioStreamEnd
deriving DecidableEq, Repr

/-- Outcome of `tts_client.synthesize_speech`: the synthesized audio
bytes, or a raised exception with its message. -/
inductive SynthOutcome
  | ok (audio_bytes : List Nat)
  | failure (msg : String)
deriving DecidableEq, Repr

/-- The slices `audio_bytes[i:i+4096]` for `i in range(0, len, 4096)`. -/
def chunkBytes : List Nat → List (List Nat)
  | [] => []
  | x :: rest => (x :: rest).take 4096 :: chunkBytes ((x :: rest).drop 4096)
termination_by b => b.length
decreasing_by
  simp only [List.drop_succ_cons, List.length_drop, List.length_cons]
  omega

/-- `GeminiLiveService.stream_tts_audio(session_id, text, ...)`: no-op
when the TTS client is absent or the text is empty; on successful
synthesis emits one `receive_audio_chunk` per 4096-byte slice followed by
`audio_stream_end`; a synthesis exception is caught and nothing is
emitted. -/
def stream_tts_audio (hasTtsClient : Bool) (text : String)
    (synth : SynthOutcome) : List TtsEvent :=
  if hasTtsClient = false ∨ text = "" then []
  else
    match synth with
    | .ok audio_bytes => (chunkBytes audio_bytes).map .audioChunk ++ [.audioStreamEnd]
    | .failure _ => []

/-! ## Duplex Stream Multiplexer: the per-message receive loop of
`GeminiLiveService._session_background_task` (source lines 175-251) -/

/-- `function_args` of a tool call: the code reads only `"query"`. -/
structure FnArgs where
  query : Option String
deriving DecidableEq, Repr

/-- One entry of `response.tool_call.function_calls`. -/
structure FunctionCall where
  id : String
  name : String
  args : FnArgs
deriving DecidableEq, Repr

/-- One frame of the remote response stream, following the inbound
message grammar.  `text = ""` models an absent or falsy `response.text`;
`toolCall` carries `function_calls` as head and tail (the list is
non-empty whenever the frame is a tool call, since the code subscripts
`[0]`). -/
structure Frame where
  text : String
  toolCall : Option (FunctionCall × List FunctionCall)
  endOfTurn : Bool
deriving DecidableEq, Repr

/-- Socket.IO emissions of the multiplexer for one session, in emission
order.  `ttsRequested` marks the `stream_tts_audio` invocation that
follows the post-loop `response_complete`. -/
inductive SinkEvent
  | responseChunk (text : String)
  | functionResult (results : List NormProduct)
  | responseComplete (text : String)
  | ttsRequested (text : String)
deriving DecidableEq, Repr

/-- The `FunctionResponse` sent back into the remote stream
(`session.send(input=func_resp, end_of_turn=False)`); `response` is the
full `{"content": function_response}` payload. -/
structure RemoteSend where
  id : String
  name : String
  response : FunctionResult
deriving DecidableEq, Repr

/-- State at exit of the inner `async for` receive loop. -/
structure LoopOut where
  events : List SinkEvent
  frs : Bool
  rcs : Bool
  acc : String
  remote : Option RemoteSend
  crashed : Bool
deriving DecidableEq, Repr

/-- Python whitespace as removed by `str.strip()`. -/
def isPySpace (c : Char) : Bool :=
  c = ' ' ∨ c = '\t' ∨ c = '\n' ∨ c = '\r' ∨ c = Char.ofNat 11 ∨ c = Char.ofNat 12

/-- Python `s.strip()`: leading and trailing whitespace removed. -/
def pyStrip (s : String) : String :=
  ⟨((s.data.dropWhile isPySpace).reverse.dropWhile isPySpace).reverse⟩

/-- The condition `function_name == "search_products" and
function_response and "results" in function_response`: a Python dict with
a `results` key is non-empty, hence truthy, so the test is equivalent to
the payload being a 200 body containing `results`. -/
def searchResultsOf (function_name : String) (resp : FunctionResult) :
    Option (List Product) :=
  if function_name = "search_products" then
    match resp with
    | .ok d => d.results
    | .err _ => none
  else none

/-- The inner receive loop (`async for response in session.receive()`),
one step per frame.  `frs` is `session_data["_function_result_sent"]`,
`rcs` is `session_data["_response_complete_sent"]`, `acc` is
`accumulated_text`, `hasSink` is whether `socketio`/`client_sid` are
stored on the session.  In the search-success branch with no sink, the
code reads the unbound/`None` local `socketio` at the unconditional
`response_complete` emit and raises (`crashed`), after setting
`_function_result_sent`. -/
def runReceiveLoop (hasSink : Bool) (net : SearchOutcome) (rand : String) :
    Bool → Bool → String → List Frame → LoopOut
  | frs, rcs, acc, [] => ⟨[], frs, rcs, acc, none, false⟩
  | frs, rcs, acc, f :: rest =>
    let acc1 := if f.text = "" then acc else acc ++ f.text
    let evText : List SinkEvent :=
      if f.text ≠ "" ∧ hasSink then [.responseChunk f.text] else []
    match f.toolCall with
    | some (fc, _others) =>
      let resp := execute_function fc.name fc.args.query net
      match searchResultsOf fc.name resp with
      | some rs =>
        let evFR : List SinkEvent :=
          if hasSink then [.functionResult (rs.map (normalize_product rand none))] else []
        if rcs then
          ⟨evText ++ evFR, true, rcs, acc1, some ⟨fc.id, fc.name, resp⟩, false⟩
        else if hasSink then
          ⟨evText ++ evFR ++ [.responseComplete "Here you go!"], true, true, acc1,
            some ⟨fc.id, fc.name, resp⟩, false⟩
        else
          ⟨evText, true, rcs, acc1, none, true⟩
      | none =>
        ⟨evText, frs, rcs, acc1, some ⟨fc.id, fc.name, resp⟩, false⟩
    | none =>
      if f.endOfTurn then
        let stripped := pyStrip acc1
        let useFallback := stripped = "" ∧ frs
        let finalText := if useFallback then "Here you go!" else stripped
        let frs2 := if useFallback then false else frs
        let evC : List SinkEvent :=
          if hasSink then [.responseComplete finalText] else []
        ⟨evText ++ evC, frs2, rcs, acc1, none, false⟩
      else
        let out := runReceiveLoop hasSink net rand frs rcs acc1 rest
        ⟨evText ++ out.events, out.frs, out.rcs, out.acc, out.remote, out.crashed⟩

/-- Result of processing one dequeued message (one turn). -/
structure TurnResult where
  events : List SinkEvent
  frs : Bool
  acc : String
  remote : Option RemoteSend
  crashed : Bool
deriving DecidableEq, Repr

/-- Processing of one dequeued message by `_session_background_task`:
run the receive loop (`_response_complete_sent` is falsy at message
start: it is either unset or reset to `False` at the end of the previous
message), then the post-loop block that emits `response_complete` with
`accumulated_text` and triggers TTS whenever a sink is attached and the
idempotency flag was not set; a crash skips the post-loop block.  `frs`
is `_function_result_sent`, which persists across messages. -/
def processTurn (hasSink : Bool) (net : SearchOutcome) (rand : String)
    (frs : Bool) (frames : List Frame) : TurnResult :=
  let out := runReceiveLoop hasSink net rand frs false "" frames
  if out.crashed then ⟨out.events, out.frs, out.acc, out.remote, true⟩
  else if hasSink ∧ ¬out.rcs then
    ⟨out.events ++ [.responseComplete out.acc, .ttsRequested out.acc],
      out.frs, out.acc, out.remote, false⟩
  else ⟨out.events, out.frs, out.acc, out.remote, false⟩

/-- The texts of the `response_complete` emissions among a turn's events. -/
def completeTexts (evs : List SinkEvent) : List String :=
  evs.filterMap fun e =>
    match e with
    | .responseComplete t => some t
    | _ => none

/-! ## `GeminiLiveService.send_user_input_to_session`: search-result
formatting sent back to the remote service -/

/-- One item of the `search_results` list built from `data['results'][:5]`. -/
structure SUIItem where
  id : String
  name : String
  price : String
  image_url : String
  aisle : String
deriving DecidableEq, Repr

/-- The `search_results` list of `send_user_input_to_session`: the first
5 products of `data['results']` (empty when the key is absent), each
projected onto the five surfaced fields with `''` defaults. -/
def format_search_results (data : SearchData) : List SUIItem :=
  match data.results with
  | some rs =>
      (rs.take 5).map fun p =>
        { id := p.id.getD ""
        , name := p.name.getD ""
        , price := p.price.getD ""
        , image_url := p.image_url.getD ""
        , aisle := p.aisle.getD "" }
  | none => []

/-! ## `GeminiLive2Service.process_streaming`: tool-call frame handling -/

/-- Events emitted on the `/live2` namespace for a tool-call frame. -/
inductive Live2Event
  | message (results : List NormProduct)
deriving DecidableEq, Repr

/-- The tool-call branch of `GeminiLive2Service.process_streaming`:
`function_calls[0]` is read; for `search_products` a single stub product
is normalized and emitted; the remaining calls in the frame are unused. -/
def live2_handle_tool_call (hasSink : Bool) (rand : String)
    (fc : FunctionCall) (_others : List FunctionCall) : List Live2Event :=
  if fc.name = "search_products" then
    let q := fc.args.query.getD ""
    let product := normalize_product rand (some q)
      { id := some "1", productid := none, image_url := none
      , name := some ("Result for " ++ q), description := none
      , price := none, aisle := none }
    if hasSink then [.message [product]] else []
  else []

/-- A frame list with every tool-call frame reduced to its first function
call (the tail of `function_calls` dropped). -/
def dropExtraCalls (frames : List Frame) : List Frame :=
  frames.map fun f =>
    { f with toolCall := f.toolCall.map fun p => (p.1, []) }

/-- Number of products inside the function response forwarded to the
remote service, when one was sent and carried a `results` list. -/
def remoteResultCount : Option RemoteSend → Nat
  | some r =>
      match r.response with
      | .ok d => (d.results.getD []).length
      | .err _ => 0
  | none => 0

/-!
# Theorems for the specification claims
-/

/-- Claim C9: for every session id with no entry in the response store,
`get_current_response` returns `None` (no exception, no error value), and
the polling route answers the 202 `processing` body, exactly as for a
session whose response is still being produced. -/
theorem unknown_session_polls_as_processing
    (responses : Registry SessionResponse) (session_id : String)
    (h : responses session_id = none) :
    GeminiLiveService.get_current_response responses session_id = none ∧
    get_live_response responses session_id = (.processing, responses) := by
  refine ⟨h, ?_⟩
  simp [get_live_response, GeminiLiveService.get_current_response, h]

/-- Witness for C9 at the empty response store and id `"s1"`. -/
theorem unknown_session_polls_as_processing_witness :
    GeminiLiveService.get_current_response (Registry.empty : Registry SessionResponse) "s1"
        = none ∧
    get_live_response (Registry.empty : Registry SessionResponse) "s1"
        = (.processing, Registry.empty) :=
  unknown_session_polls_as_processing Registry.empty "s1" rfl

/-- Claim C10: `handle_audio_chunk` on an existing active session appends
exactly the given chunk to that session's `audio` list, acknowledges with
`{"status": "audio chunk received"}`, and leaves every other session's
entry unchanged; on a missing or inactive session it returns
`{"error": "Invalid session"}` and leaves the registry unchanged. -/
theorem handle_audio_chunk_effect (hasLoop : Bool) (r : Registry Live2Session)
    (session_id : String) (pcm : List Nat) :
    (∀ s, r session_id = some s → s.active = true →
      (GeminiLive2Service.handle_audio_chunk hasLoop r session_id pcm).1
          = .ok "audio chunk received" ∧
      ((GeminiLive2Service.handle_audio_chunk hasLoop r session_id pcm).2 session_id).map
          Live2Session.audio = some (s.audio ++ [pcm]) ∧
      (∀ sid, sid ≠ session_id →
        (GeminiLive2Service.handle_audio_chunk hasLoop r session_id pcm).2 sid = r sid)) ∧
    (r session_id = none →
      GeminiLive2Service.handle_audio_chunk hasLoop r session_id pcm
        = (.error "Invalid session", r)) ∧
    (∀ s, r session_id = some s → s.active = false →
      GeminiLive2Service.handle_audio_chunk hasLoop r session_id pcm
        = (.error "Invalid session", r)) := by
  refine ⟨?_, ?_, ?_⟩
  · intro s hs hact
    refine ⟨?_, ?_, ?_⟩
    · unfold GeminiLive2Service.handle_audio_chunk
      rw [hs]
      simp [hact]
    · unfold GeminiLive2Service.handle_audio_chunk
      rw [hs]
      cases hasLoop <;> simp [hact, Registry.set]
    · intro sid hsid
      unfold GeminiLive2Service.handle_audio_chunk
      rw [hs]
      cases hasLoop <;> simp [hact, Registry.set, hsid]
  · intro h
    unfold GeminiLive2Service.handle_audio_chunk
    rw [h]
  · intro s hs hact
    unfold GeminiLive2Service.handle_audio_chunk
    rw [hs]
    simp [hact]

/-- Witness for C10 on a one-session registry, appending chunk `[7, 8]`. -/
theorem handle_audio_chunk_effect_witness :
    (GeminiLive2Service.handle_audio_chunk true
        (Registry.set (Registry.empty : Registry Live2Session) "s"
          { audio := [[1]], active := true, outQueuePending := [] }) "s" [7, 8]).1
      = .ok "audio chunk received" ∧
    ((GeminiLive2Service.handle_audio_chunk true
        (Registry.set (Registry.empty : Registry Live2Session) "s"
          { audio := [[1]], active := true, outQueuePending := [] }) "s" [7, 8]).2 "s").map
        Live2Session.audio = some [[1], [7, 8]] :=
  ⟨((handle_audio_chunk_effect true _ "s" [7, 8]).1
      { audio := [[1]], active := true, outQueuePending := [] } (by decide) rfl).1,
   ((handle_audio_chunk_effect true _ "s" [7, 8]).1
      { audio := [[1]], active := true, outQueuePending := [] } (by decide) rfl).2.1⟩

/-- Claim C8: the Tool Executor returns a structured `{"error": ...}` dict for
every function name other than `search_products` (identifying the
unsupported function), and every failure of the search call itself (a
non-200 status, a raised exception, or a missing/empty query) is returned
as a structured error payload; `execute_function` is a total function, so
no path raises. -/
theorem execute_function_structured_errors :
    (∀ name query net, name ≠ "search_products" →
      execute_function name query net = .err ("Unknown function: " ++ name)) ∧
    (∀ q status body, q ≠ "" →
      execute_function "search_products" (some q) (.httpError status body)
        = .err ("Search failed with status " ++ toString status ++ ": " ++ body)) ∧
    (∀ q msg, q ≠ "" →
      execute_function "search_products" (some q) (.exn msg)
        = .err ("Error executing search: " ++ msg)) ∧
    (∀ net, execute_function "search_products" none net = .err "No query provided") ∧
    (∀ net, execute_function "search_products" (some "") net = .err "No query provided") := by
  refine ⟨?_, ?_, ?_, ?_, ?_⟩
  · intro name query net h
    simp [execute_function, h]
  · intro q status body h
    simp [execute_function, h]
  · intro q msg h
    simp [execute_function, h]
  · intro net
    simp [execute_function]
  · intro net
    simp [execute_function]

/-- Witness for C8 at the unsupported name `"frobnicate"` and at a
status-500 search failure. -/
theorem execute_function_structured_errors_witness :
    execute_function "frobnicate" (some "x") (.exn "boom")
      = .err ("Unknown function: " ++ "frobnicate") ∧
    execute_function "search_products" (some "shoes") (.httpError 500 "oops")
      = .err ("Search failed with status " ++ toString 500 ++ ": " ++ "oops") :=
  ⟨execute_function_structured_errors.1 "frobnicate" (some "x") (.exn "boom") (by decide),
   execute_function_structured_errors.2.1 "shoes" 500 "oops" (by decide)⟩

/-- Claim C2 counterexample: on `GeminiLive2Service`, with a registry holding
the single session `"s"`, `end_session "s"` returns `True` and then a
second `end_session "s"` returns `True` again (the claim says `False`),
and after the first call the registry entry for `"s"` is still present
(merely marked inactive), not removed. -/
theorem end_session_twice_counterexample :
    (GeminiLive2Service.end_session
        (GeminiLive2Service.create_session Registry.empty "s").2 "s").1 = true ∧
    (GeminiLive2Service.end_session
        (GeminiLive2Service.end_session
          (GeminiLive2Service.create_session Registry.empty "s").2 "s").2 "s").1 = true ∧
    (GeminiLive2Service.end_session
        (GeminiLive2Service.create_session Registry.empty "s").2 "s").2 "s"
      = some { audio := [], active := false, outQueuePending := [] } := by
  decide

/-- Claim C2 amended: `GeminiLive2Service.end_session` returns `True` whenever
the id is present and `False` when it is absent; it marks the entry
inactive without removing it, so a second call returns `True` again but
leaves the registry state unchanged (the operation is idempotent on
state, so nothing is freed twice).  `GeminiLiveService.end_session`
removes the registry entries on the first call and the second call is a
state-preserving no-op, but it returns `None` in both cases rather than
a boolean. -/
theorem end_session_idempotence (r : Registry Live2Session) (st : V1State)
    (session_id : String) :
    (∀ s, r session_id = some s →
      (GeminiLive2Service.end_session r session_id).1 = true ∧
      (GeminiLive2Service.end_session r session_id).2 session_id
        = some { s with active := false } ∧
      (GeminiLive2Service.end_session
        (GeminiLive2Service.end_session r session_id).2 session_id).1 = true ∧
      (GeminiLive2Service.end_session
        (GeminiLive2Service.end_session r session_id).2 session_id).2
        = (GeminiLive2Service.end_session r session_id).2) ∧
    (r session_id = none →
      GeminiLive2Service.end_session r session_id = (false, r)) ∧
    ((GeminiLiveService.end_session st session_id).1 = none ∧
      (GeminiLiveService.end_session st session_id).2.active_sessions session_id = none ∧
      GeminiLiveService.end_session (GeminiLiveService.end_session st session_id).2 session_id
        = (none, (GeminiLiveService.end_session st session_id).2)) := by
  refine ⟨?_, ?_, ?_⟩
  · intro s hs
    have h1 : GeminiLive2Service.end_session r session_id
        = (true, Registry.set r session_id { s with active := false }) := by
      unfold GeminiLive2Service.end_session
      rw [hs]
    have hlook : (Registry.set r session_id { s with active := false }) session_id
        = some { s with active := false } := by
      simp [Registry.set]
    have h2 : GeminiLive2Service.end_session
        (Registry.set r session_id { s with active := false }) session_id
        = (true, Registry.set (Registry.set r session_id { s with active := false })
            session_id { s with active := false }) := by
      unfold GeminiLive2Service.end_session
      rw [hlook]
    have hset : Registry.set (Registry.set r session_id { s with active := false })
        session_id { s with active := false }
        = Registry.set r session_id { s with active := false } := by
      funext q
      simp [Registry.set]
      intro hq
      simp [hq]
    rw [h1]
    refine ⟨rfl, hlook, ?_, ?_⟩
    · rw [h2]
    · rw [h2, hset]
  · intro h
    unfold GeminiLive2Service.end_session
    rw [h]
  · rcases hs : st.active_sessions session_id with _ | s
    · have h1 : GeminiLiveService.end_session st session_id = (none, st) := by
        unfold GeminiLiveService.end_session
        rw [hs]
      refine ⟨?_, ?_, ?_⟩
      · rw [h1]
      · rw [h1]
        exact hs
      · rw [h1]
        exact h1
    · have h1 : GeminiLiveService.end_session st session_id
          = (none, ⟨Registry.erase st.active_sessions session_id,
                    Registry.erase st.session_responses session_id⟩) := by
        unfold GeminiLiveService.end_session
        rw [hs]
      have h2 : GeminiLiveService.end_session
          (⟨Registry.erase st.active_sessions session_id,
            Registry.erase st.session_responses session_id⟩ : V1State) session_id
          = (none, ⟨Registry.erase st.active_sessions session_id,
                    Registry.erase st.session_responses session_id⟩) := by
        simp [GeminiLiveService.end_session, Registry.erase]
      refine ⟨?_, ?_, ?_⟩
      · rw [h1]
      · rw [h1]
        simp [Registry.erase]
      · rw [h1]
        exact h2

/-- Witness for C2 amended on a one-session registry and an empty
`GeminiLiveService` state. -/
theorem end_session_idempotence_witness :
    (GeminiLive2Service.end_session
        (Registry.set (Registry.empty : Registry Live2Session) "w"
          { audio := [], active := true, outQueuePending := [] }) "w").1 = true ∧
    (GeminiLiveService.end_session V1State.empty "w").1 = none :=
  ⟨((end_session_idempotence
      (Registry.set Registry.empty "w" { audio := [], active := true, outQueuePending := [] })
      V1State.empty "w").1
      { audio := [], active := true, outQueuePending := [] } (by decide)).1,
   (end_session_idempotence
      (Registry.set Registry.empty "w" { audio := [], active := true, outQueuePending := [] })
      V1State.empty "w").2.2.1⟩

/-- Claim C3 counterexample: starting from the empty state, `create_session`
for id `"abc"` returns `"abc"` (a success, handed back before the
handshake is even attempted) and after the handshake-failure branch runs,
the registry still contains the entry for `"abc"` (marked disconnected),
contradicting both the claimed failure result and the claimed absence of
the entry. -/
theorem handshake_failure_counterexample :
    (GeminiLiveService.create_session V1State.empty "abc").1 = "abc" ∧
    (GeminiLiveService.handshake_failure
        (GeminiLiveService.create_session V1State.empty "abc").2 "abc").active_sessions "abc"
      = some { connected := false, hasTask := true } := by
  decide

/-- Claim C3 amended: `create_session` returns the session id to its caller
unconditionally, before the remote handshake is attempted; when the
handshake then fails, the background task only marks the entry
`connected = False` and terminates, so the registry keeps an entry for
the attempted id and no failure result is ever delivered. -/
theorem handshake_failure_leaves_registry_entry (st : V1State) (session_id : String) :
    (GeminiLiveService.create_session st session_id).1 = session_id ∧
    (GeminiLiveService.handshake_failure
       (GeminiLiveService.create_session st session_id).2 session_id).active_sessions
        session_id
      = some { connected := false, hasTask := true } := by
  refine ⟨rfl, ?_⟩
  simp [GeminiLiveService.create_session, GeminiLiveService.handshake_failure,
    Registry.modify, Registry.set]

/-- The chunks produced by `chunkBytes` concatenate back to the input. -/
theorem chunkBytes_flatten (b : List Nat) : (chunkBytes b).flatten = b := by
  induction b using chunkBytes.induct with
  | case1 => simp [chunkBytes]
  | case2 x rest ih =>
    rw [chunkBytes]
    simp only [List.flatten_cons, ih]
    exact List.take_append_drop 4096 (x :: rest)

/-- Every chunk produced by `chunkBytes` holds at most 4096 bytes. -/
theorem chunkBytes_size (b : List Nat) : ∀ c ∈ chunkBytes b, c.length ≤ 4096 := by
  induction b using chunkBytes.induct with
  | case1 => simp [chunkBytes]
  | case2 x rest ih =>
    rw [chunkBytes]
    intro c hc
    rcases List.mem_cons.mp hc with h | h
    · subst h
      simp
    · exact ih c h

/-- `chunkBytes` produces exactly `⌈length / 4096⌉` chunks. -/
theorem chunkBytes_count (b : List Nat) :
    (chunkBytes b).length = (b.length + 4095) / 4096 := by
  induction b using chunkBytes.induct with
  | case1 => simp [chunkBytes]
  | case2 x rest ih =>
    rw [chunkBytes]
    simp only [List.length_cons, ih, List.length_drop]
    omega

/-- Claim C7: for every successful synthesis producing bytes `b` (the TTS
client is present and the text non-empty, otherwise no synthesis
happens), the emissions are exactly `⌈len(b)/4096⌉` `receive_audio_chunk`
events whose payloads have size at most 4096 and concatenate in order to
`b`, followed by exactly one `audio_stream_end`; and a synthesis failure
is caught, emitting nothing and returning normally. -/
theorem stream_tts_audio_chunked (text : String) (b : List Nat) (h : text ≠ "") :
    stream_tts_audio true text (.ok b)
      = (chunkBytes b).map TtsEvent.audioChunk ++ [TtsEvent.audioStreamEnd] ∧
    ((chunkBytes b).map TtsEvent.audioChunk).length = (b.length + 4095) / 4096 ∧
    (chunkBytes b).flatten = b ∧
    (∀ c ∈ chunkBytes b, c.length ≤ 4096) ∧
    (∀ msg, stream_tts_audio true text (.failure msg) = []) := by
  refine ⟨?_, ?_, chunkBytes_flatten b, chunkBytes_size b, ?_⟩
  · simp [stream_tts_audio, h]
  · simp [chunkBytes_count b]
  · intro msg
    simp [stream_tts_audio, h]

/-- Witness for C7 at text `"Hello"` and a 3-byte synthesis result. -/
theorem stream_tts_audio_chunked_witness :
    stream_tts_audio true "Hello" (.ok [1, 2, 3])
      = (chunkBytes [1, 2, 3]).map TtsEvent.audioChunk ++ [TtsEvent.audioStreamEnd] ∧
    stream_tts_audio true "Hello" (.failure "boom") = [] :=
  ⟨(stream_tts_audio_chunked "Hello" [1, 2, 3] (by decide)).1,
   (stream_tts_audio_chunked "Hello" [1, 2, 3] (by decide)).2.2.2.2 "boom"⟩

/-- A concrete search product with every surfaced key present. -/
def sampleProduct : Product :=
  { id := some "p1", productid := none, image_url := some "img"
  , name := some "Blue Jacket", description := some "A jacket"
  , price := some "$59.99", aisle := some "A1" }

/-- Claim C1: evaluation of the multiplexer on a turn whose remote stream
yields a text fragment `"Hi"` followed by an end-of-turn marker, with a
sink attached: `response_complete` is emitted twice in this turn.  The
end-of-turn branch emits without setting the
`_response_complete_sent` idempotency flag, so the unconditional
post-loop block emits a second time. -/
theorem complete_emitted_twice_on_end_of_turn :
    (processTurn true (.exn "") "" false
      [⟨"Hi", none, false⟩, ⟨"", none, true⟩]).events
      = [.responseChunk "Hi", .responseComplete "Hi", .responseComplete "Hi",
         .ttsRequested "Hi"] ∧
    completeTexts (processTurn true (.exn "") "" false
      [⟨"Hi", none, false⟩, ⟨"", none, true⟩]).events = ["Hi", "Hi"] := by
  decide

/-- Claim C4 counterexample: a search returning 6 products; the background-task
multiplexer forwards the full 6-item payload to the remote service
(`response={"content": function_response}` is the untruncated search
body), contradicting the claimed at-most-5 bound for every forwarding
path. -/
theorem remote_results_not_truncated_counterexample :
    (processTurn true (.ok ⟨some (List.replicate 6 sampleProduct)⟩) "" false
      [⟨"", some (⟨"c", "search_products", ⟨some "q"⟩⟩, []), false⟩]).remote
      = some ⟨"c", "search_products", .ok ⟨some (List.replicate 6 sampleProduct)⟩⟩ ∧
    remoteResultCount
      (processTurn true (.ok ⟨some (List.replicate 6 sampleProduct)⟩) "" false
        [⟨"", some (⟨"c", "search_products", ⟨some "q"⟩⟩, []), false⟩]).remote = 6 ∧
    ¬ remoteResultCount
      (processTurn true (.ok ⟨some (List.replicate 6 sampleProduct)⟩) "" false
        [⟨"", some (⟨"c", "search_products", ⟨some "q"⟩⟩, []), false⟩]).remote ≤ 5 := by
  decide

/-- Claim C4 amended: the `send_user_input_to_session` path surfaces at most 5
items (it slices `data['results'][:5]`), but the background-task path
sends the full untruncated search payload back to the remote service as
the tool's return value. -/
theorem search_results_surfaced_to_remote (d : SearchData) (ps : List Product)
    (frs : Bool) (rand : String) :
    (format_search_results d).length ≤ 5 ∧
    (processTurn true (.ok ⟨some ps⟩) rand frs
      [⟨"", some (⟨"c", "search_products", ⟨some "q"⟩⟩, []), false⟩]).remote
      = some ⟨"c", "search_products", .ok ⟨some ps⟩⟩ := by
  constructor
  · rcases d with ⟨_ | rs⟩
    · simp [format_search_results]
    · simp [format_search_results]
  · rfl

/-- Claim C5 counterexample: a turn whose remote stream yields the text
`"Hello."` and then a successful `search_products` tool call: the
accumulated text is the non-empty `"Hello."`, yet the `response_complete`
emitted for the turn carries the fallback `"Here you go!"`, not the
accumulated text. -/
theorem fallback_overrides_accumulated_text_counterexample :
    (processTurn true (.ok ⟨some [sampleProduct]⟩) "" false
      [⟨"Hello.", none, false⟩,
       ⟨"", some (⟨"c1", "search_products", ⟨some "blue jacket"⟩⟩, []), false⟩]).acc
      = "Hello." ∧
    completeTexts (processTurn true (.ok ⟨some [sampleProduct]⟩) "" false
      [⟨"Hello.", none, false⟩,
       ⟨"", some (⟨"c1", "search_products", ⟨some "blue jacket"⟩⟩, []), false⟩]).events
      = ["Here you go!"] ∧
    completeTexts (processTurn true (.ok ⟨some [sampleProduct]⟩) "" false
      [⟨"Hello.", none, false⟩,
       ⟨"", some (⟨"c1", "search_products", ⟨some "blue jacket"⟩⟩, []), false⟩]).events
      ≠ ["Hello."] := by
  decide

/-- Claim C5 amended: when a `search_products` call returns a result list, the
turn's `response_complete` carries the fallback `"Here you go!"`
regardless of whether accumulated text is empty; the accumulated text is
carried only in the end-of-turn path, whose (first) `response_complete`
carries the stripped accumulated text, with the fallback substituted
exactly when the stripped text is empty and the function-result flag is
set. -/
theorem complete_text_policy (t q cid rand : String) (frs : Bool)
    (rs : List Product) (net : SearchOutcome) (hq : q ≠ "") :
    completeTexts (processTurn true (.ok ⟨some rs⟩) rand frs
      [⟨t, none, false⟩,
       ⟨"", some (⟨cid, "search_products", ⟨some q⟩⟩, []), false⟩]).events
      = ["Here you go!"] ∧
    (completeTexts (processTurn true net rand frs
      [⟨t, none, false⟩, ⟨"", none, true⟩]).events).head?
      = some (if pyStrip t = "" ∧ frs then "Here you go!" else pyStrip t) := by
  constructor
  · rw [processTurn, runReceiveLoop, runReceiveLoop]
    simp [execute_function, searchResultsOf, hq, completeTexts]
  · rw [processTurn, runReceiveLoop, runReceiveLoop]
    by_cases ht : t = ""
    · subst ht
      simp [completeTexts]
    · simp [ht, completeTexts]

/-- Witness for C5 amended with non-empty accumulated text `"Hello."`
and query `"blue jacket"`. -/
theorem complete_text_policy_witness :
    completeTexts (processTurn true (.ok ⟨some [sampleProduct]⟩) "r" true
      [⟨"Hello.", none, false⟩,
       ⟨"", some (⟨"c9", "search_products", ⟨some "blue jacket"⟩⟩, []), false⟩]).events
      = ["Here you go!"] ∧
    (completeTexts (processTurn true (.exn "e") "r" true
      [⟨"Hello.", none, false⟩, ⟨"", none, true⟩]).events).head?
      = some (if pyStrip "Hello." = "" ∧ true then "Here you go!" else pyStrip "Hello.") :=
  ⟨(complete_text_policy "Hello." "blue jacket" "c9" "r" true [sampleProduct]
      (.exn "e") (by decide)).1,
   (complete_text_policy "Hello." "blue jacket" "c9" "r" true [sampleProduct]
      (.exn "e") (by decide)).2⟩

/-- The receive loop never reads past the first function call of a
tool-call frame: dropping the tail of `function_calls` from every frame
leaves the loop's behavior unchanged. -/
theorem runReceiveLoop_dropExtraCalls (hasSink : Bool) (net : SearchOutcome) (rand : String) :
    ∀ (frames : List Frame) (frs rcs : Bool) (acc : String),
      runReceiveLoop hasSink net rand frs rcs acc (dropExtraCalls frames)
        = runReceiveLoop hasSink net rand frs rcs acc frames := by
  intro frames
  induction frames with
  | nil => intro frs rcs acc; rfl
  | cons f rest ih =>
    intro frs rcs acc
    obtain ⟨t, tc, eot⟩ := f
    simp only [dropExtraCalls, List.map_cons] at *
    rw [runReceiveLoop, runReceiveLoop]
    rcases tc with _ | ⟨fc, others⟩
    · simp only [Option.map_none']
      rw [ih]
    · simp only [Option.map_some']

/-- Claim C6: a turn's processing is unchanged when the additional simultaneous
function calls of every tool-call frame are removed (they are never
executed and never answered), and for a tool-call frame exactly the
first call's response is what is sent back to the remote service; the
`GeminiLive2Service` streaming handler likewise ignores everything after
`function_calls[0]`. -/
theorem first_function_call_only :
    (∀ (hasSink : Bool) (net : SearchOutcome) (rand : String) (frs : Bool)
       (frames : List Frame),
      processTurn hasSink net rand frs (dropExtraCalls frames)
        = processTurn hasSink net rand frs frames) ∧
    (∀ (net : SearchOutcome) (rand : String) (frs : Bool)
       (fc : FunctionCall) (others : List FunctionCall),
      (processTurn true net rand frs [⟨"", some (fc, others), false⟩]).remote
        = some ⟨fc.id, fc.name, execute_function fc.name fc.args.query net⟩) ∧
    (∀ (hasSink : Bool) (rand : String) (fc : FunctionCall)
       (others : List FunctionCall),
      live2_handle_tool_call hasSink rand fc others
        = live2_handle_tool_call hasSink rand fc []) := by
  refine ⟨?_, ?_, ?_⟩
  · intro hasSink net rand frs frames
    rw [processTurn, processTurn, runReceiveLoop_dropExtraCalls]
  · intro net rand frs fc others
    rw [processTurn, runReceiveLoop]
    rcases h : searchResultsOf fc.name (execute_function fc.name fc.args.query net) with _ | rs
    · simp [h]
    · simp [h]
  · intro hasSink rand fc others
    rfl

end Ecomm
